import Mathlib

/-!
Verification of the WLTS trajectory-resolution core (`wlts/datasource.py`,
`wlts/datasources/wcs.py`) against its natural-language specification.

The Python source is shallowly embedded: pure helpers become Lean functions,
stateful service clients become explicit state passing (an HTTP/SQL call
counter plus oracle functions standing for the remote collaborators), and
fallible code returns `Except`/`Option` (Python exceptions become `.error`,
Python `None` becomes `none`).  Definitions named after the source functions
are translated from the source; definitions prefixed with `spec` follow the
specification text and are compared with the source-derived ones.
-/

set_option maxRecDepth 8192
set_option linter.unusedVariables false

namespace Wlts

/-! ### Dates

Model of `get_date_from_str` (wlts/datasource.py, also wlts/utils.py as
imported by wlts/datasources/wcs.py).  Python `datetime.strptime` is modelled
for the three formats the source tries, in order: `%Y-%m-%d`, `%Y-%m`, `%Y`.
A failed parse (Python `ValueError`) is `none`.
-/

structure Date where
  year : Nat
  month : Nat
  day : Nat
deriving DecidableEq, Repr

def isLeap (y : Nat) : Bool :=
  decide (y % 4 = 0) && (decide (y % 100 ≠ 0) || decide (y % 400 = 0))

def daysInMonth (y m : Nat) : Nat :=
  if m = 2 then (if isLeap y then 29 else 28)
  else if m = 4 ∨ m = 6 ∨ m = 9 ∨ m = 11 then 30
  else 31

/-- Python `date.replace('/', '-')`, over the character list of the string
(both pattern and replacement are single characters). -/
def pyReplaceSlashDash (l : List Char) : List Char :=
  l.map (fun c => if c = '/' then '-' else c)

/-- Splitting a character list at every `'-'`, as `strptime`'s literal `-`
separators in the formats `%Y-%m-%d` and `%Y-%m` consume it. -/
def splitOnDash : List Char → List (List Char)
  | [] => [[]]
  | c :: rest =>
    let r := splitOnDash rest
    if c = '-' then [] :: r
    else
      match r with
      | [] => [[c]]
      | h :: t => (c :: h) :: t

/-- Parse a nonempty all-digit character list as a natural number. -/
def parseNatDigits (l : List Char) : Option Nat :=
  if !l.isEmpty && l.all Char.isDigit then
    some (l.foldl (fun acc c => acc * 10 + (c.toNat - 48)) 0)
  else none

def validDate (y m d : Nat) : Bool :=
  decide (1 ≤ y) && decide (y ≤ 9999) && decide (1 ≤ m) && decide (m ≤ 12) &&
  decide (1 ≤ d) && decide (d ≤ daysInMonth y m)

/-- Model of `datetime.strptime(s, "%Y-%m-%d")`. -/
def strptimeYMD (l : List Char) : Option Date :=
  match splitOnDash l with
  | [ys, ms, dys] => do
    let y ← parseNatDigits ys
    let m ← parseNatDigits ms
    let d ← parseNatDigits dys
    if validDate y m d then some ⟨y, m, d⟩ else none
  | _ => none

/-- Model of `datetime.strptime(s, "%Y-%m")`: the day defaults to 1. -/
def strptimeYM (l : List Char) : Option Date :=
  match splitOnDash l with
  | [ys, ms] => do
    let y ← parseNatDigits ys
    let m ← parseNatDigits ms
    if validDate y m 1 then some ⟨y, m, 1⟩ else none
  | _ => none

/-- Model of `datetime.strptime(s, "%Y")`: month and day default to 1. -/
def strptimeY (l : List Char) : Option Date :=
  match splitOnDash l with
  | [ys] => do
    let y ← parseNatDigits ys
    if validDate y 1 1 then some ⟨y, 1, 1⟩ else none
  | _ => none

/-- Embedding of `get_date_from_str(date, date_ref=None)`: replace `/` by `-`,
try the three formats in order, then, when `date_ref` is truthy, execute
`date.replace(day=31, month=12)`.  `none` models the `ValueError` raised when
all three formats fail. -/
def get_date_from_str (date : String) (date_ref : Bool) : Option Date :=
  let l := pyReplaceSlashDash date.data
  let d? := (strptimeYMD l) <|> (strptimeYM l) <|> (strptimeY l)
  match d? with
  | none => none
  | some d => some (if date_ref then { d with day := 31, month := 12 } else d)

/-- Python `datetime` comparison restricted to the (year, month, day) fields
populated by `get_date_from_str` (the time-of-day fields are always zero). -/
def dateLt (a b : Date) : Bool :=
  decide (a.year < b.year) ||
    (decide (a.year = b.year) &&
      (decide (a.month < b.month) ||
        (decide (a.month = b.month) && decide (a.day < b.day))))

/-! ### Common descriptor records

Records for the Python objects handed to the trajectory operations: the
geometry property dict, the observation mapping dict, and the classification
class object (accessed through `get_name`, `get_id`,
`get_class_property_name`, `get_type`). -/

structure GeomProperty where
  property_name : String
  srid : String

structure Obs where
  temporal_property : String
  class_property : String
  class_property_name : String

structure ClassificationClass where
  name : String
  id : String
  class_property_name : String
  type : String

structure Temporal where
  type : String
  string_format : String

/-- Single quote character, written via its code point. -/
def sq : String := (Char.ofNat 39).toString

/-- Rendered WKT of `shapely.geometry.Point(x, y)`; the numeric formatting of
the coordinates is external, so coordinates enter as already-rendered
strings. -/
def pointWkt (x y : String) : String := "POINT (" ++ x ++ " " ++ y ++ ")"

/-! ### PostGIS backend (`PostGisDataSource.get_trajectory`)

The SQL text construction is embedded literally; the `execute_query`
collaborator (psycopg2 cursor) is an oracle function from SQL text to a list
of rows.  `start_date`/`end_date` are `Option`s (`None` in Python). -/

/-- Embedding of the SQL string built by `PostGisDataSource.get_trajectory`:
the `if/elif/elif/else` chain over
`(classification_class.get_type() == "Literal", temporal["type"] == "STRING")`
with the optional inclusive date-bound predicates of each branch. -/
def postgisTrajectorySql (feature_type temporal_type : String) (x y : String)
    (obs : Obs) (geom_property : GeomProperty)
    (classification_class : ClassificationClass)
    (start_date end_date : Option String) : String :=
  let where_sql := " WHERE ST_Intersects(" ++ geom_property.property_name ++
    ", ST_GeomFromText(" ++ sq ++ pointWkt x y ++ sq ++ ", " ++
    geom_property.srid ++ "))"
  let class_name := classification_class.name
  let class_id := classification_class.id
  let class_property_name := classification_class.class_property_name
  if classification_class.type = "Literal" ∧ temporal_type = "STRING" then
    let properties := " " ++ sq ++ class_property_name ++ sq ++ " AS classe, " ++
      sq ++ obs.temporal_property ++ sq ++ " AS data "
    let from_str := "FROM " ++ feature_type
    let sql := "SELECT" ++ properties ++ from_str ++ where_sql
    let sql := match start_date with
      | some sd => sql ++ " AND " ++ sq ++ obs.temporal_property ++ sq ++ " >= " ++ sd
      | none => sql
    match end_date with
    | some ed => sql ++ " AND " ++ sq ++ obs.temporal_property ++ sq ++ " <= " ++ ed
    | none => sql
  else if classification_class.type = "Literal" ∧ temporal_type ≠ "STRING" then
    let properties := " " ++ sq ++ class_property_name ++ sq ++ " AS classe, " ++
      obs.temporal_property ++ " AS data "
    let from_str := "FROM " ++ feature_type
    let sql := "SELECT" ++ properties ++ from_str ++ where_sql
    let sql := match start_date with
      | some sd => sql ++ " AND " ++ obs.temporal_property ++ " >= " ++ sd
      | none => sql
    match end_date with
    | some ed => sql ++ " AND " ++ obs.temporal_property ++ " <= " ++ ed
    | none => sql
  else if classification_class.type ≠ "Literal" ∧ temporal_type = "STRING" then
    let properties := " " ++ "class." ++ class_property_name ++ " AS classe, " ++
      sq ++ obs.temporal_property ++ sq ++ " AS data "
    let from_str := "FROM " ++ feature_type ++ " AS dado, " ++ class_name ++ " AS class"
    let where_sql := where_sql ++ " AND dado." ++ obs.class_property ++
      " = class." ++ class_id ++ " "
    let sql := "SELECT" ++ properties ++ from_str ++ where_sql
    let sql := match start_date with
      | some sd => sql ++ " AND " ++ sq ++ obs.temporal_property ++ sq ++ " >= " ++ sd
      | none => sql
    match end_date with
    | some ed => sql ++ " AND " ++ sq ++ obs.temporal_property ++ sq ++ " <= " ++ ed
    | none => sql
  else
    let properties := " " ++ "class." ++ class_property_name ++ " AS classe, " ++
      obs.temporal_property ++ " AS data "
    let from_str := "FROM " ++ feature_type ++ " AS dado, " ++ class_name ++ " AS class"
    let where_sql := where_sql ++ " AND dado." ++ obs.class_property ++
      " = class." ++ class_id ++ " "
    let sql := "SELECT" ++ properties ++ from_str ++ where_sql
    let sql := match start_date with
      | some sd => sql ++ " AND " ++ obs.temporal_property ++ " >= " ++ sd
      | none => sql
    match end_date with
    | some ed => sql ++ " AND " ++ obs.temporal_property ++ " <= " ++ ed
    | none => sql

/-- Embedding of the tail of `PostGisDataSource.get_trajectory`:
`return self.execute_query(sql)[0] if self.execute_query(sql) else None`.
The oracle `execute` stands for the pure result set of the SQL executor, so
the double execution of the source collapses to one lookup. -/
def postgisGetTrajectory (execute : String → List (List String))
    (feature_type temporal_type : String) (x y : String) (obs : Obs)
    (geom_property : GeomProperty) (classification_class : ClassificationClass)
    (start_date end_date : Option String) : Option (List String) :=
  let sql := postgisTrajectorySql feature_type temporal_type x y obs
    geom_property classification_class start_date end_date
  match execute sql with
  | [] => none
  | r :: _ => some r

/-! Specification-side definitions for the §4.1 decision table, written from
the spec's words ("literal quoted class constant vs joined class column",
"quoted temporal value vs raw temporal value", "join iff Attribute", spatial
containment always present); `Attribute` is any kind other than `Literal`. -/

/-- Spec decision table, class-expression column. -/
def specClassExpr (cls : ClassificationClass) : String :=
  if cls.type = "Literal" then sq ++ cls.class_property_name ++ sq
  else "class." ++ cls.class_property_name

/-- Spec decision table, date-expression column. -/
def specDateExpr (temporal_type : String) (obs : Obs) : String :=
  if temporal_type = "STRING" then sq ++ obs.temporal_property ++ sq
  else obs.temporal_property

/-- Spec decision table, source clause: the join variants add the
classification entity as a second source. -/
def specFromClause (feature_type : String) (cls : ClassificationClass) : String :=
  if cls.type = "Literal" then "FROM " ++ feature_type
  else "FROM " ++ feature_type ++ " AS dado, " ++ cls.name ++ " AS class"

/-- Spec: the always-present spatial containment predicate over the supplied
geometry property and SRID. -/
def specSpatialPred (x y : String) (gp : GeomProperty) : String :=
  " WHERE ST_Intersects(" ++ gp.property_name ++ ", ST_GeomFromText(" ++ sq ++
    pointWkt x y ++ sq ++ ", " ++ gp.srid ++ "))"

/-- Spec: the equality predicate between the observation's class-reference
attribute and the classification entity's identifier, present exactly for the
Attribute (non-Literal) kind. -/
def specJoinPred (obs : Obs) (cls : ClassificationClass) : String :=
  if cls.type = "Literal" then ""
  else " AND dado." ++ obs.class_property ++ " = class." ++ cls.id ++ " "

/-- Spec: an optional inclusive date bound against the (quoted or raw)
temporal expression, matching the quoting rule of the date expression. -/
def specDateBound (op : String) (temporal_type : String) (obs : Obs)
    (b : Option String) : String :=
  match b with
  | none => ""
  | some v => " AND " ++ specDateExpr temporal_type obs ++ op ++ v

/-- Spec-shaped assembly of the whole query from the §4.1 decision table. -/
def specQuery (feature_type temporal_type : String) (x y : String) (obs : Obs)
    (gp : GeomProperty) (cls : ClassificationClass)
    (start_date end_date : Option String) : String :=
  "SELECT" ++ " " ++ specClassExpr cls ++ " AS classe, " ++
    specDateExpr temporal_type obs ++ " AS data " ++
    specFromClause feature_type cls ++ specSpatialPred x y gp ++
    specJoinPred obs cls ++
    specDateBound " >= " temporal_type obs start_date ++
    specDateBound " <= " temporal_type obs end_date

/-! ### WFS backend (`WFSConnectionPool`, `WFSDataSource.get_trajectory`)

The HTTP transport is an oracle: `WfsServer` fixes what the remote service
answers (the capabilities feature-type list, the `GetFeature` feature list,
and the `GetFeature&featureID` class value), and every `_get` round-trip
increments an explicit call counter.  Feature properties are total functions
from attribute name to value.  Python exceptions (`NotFound`, `ValueError`)
are `.error`; a bare Python `return` is `none`, a returned result list is
`some`. -/

structure WfsServer where
  featureTypes : List String
  features : List (String → String)
  classValue : String

/-- Embedding of `WFSConnectionPool.list_feature`: one `_get` round-trip
returning the capabilities feature-type list. -/
def wfsListFeature (srv : WfsServer) (calls : Nat) : List String × Nat :=
  (srv.featureTypes, calls + 1)

/-- Embedding of `WFSConnectionPool.check_feature`: calls `list_feature` (one
round-trip, on every invocation — there is no caching) and raises `NotFound`
when the feature type is absent. -/
def wfsCheckFeature (srv : WfsServer) (ft_name : String) (calls : Nat) :
    Except String Nat :=
  let r := wfsListFeature srv calls
  if ft_name ∈ r.1 then .ok r.2
  else .error ("Feature \"" ++ ft_name ++ "\" not found")

/-- Keyword arguments of `WFSConnectionPool.get_feature`; the URL text they
produce does not feed back into the modelled semantics (the server's answer
is the oracle), so they are carried as data. -/
structure WfsArgs where
  feature_type : String
  geom : String × String
  geom_property : GeomProperty
  srid : String
  propertyName : Option String := none
  start_date : Option String := none
  end_date : Option String := none

/-- Embedding of `WFSConnectionPool.get_feature`: `check_feature` first (one
`list_feature` round-trip), then the main `GetFeature` request (a second
round-trip); returns the first feature's properties when the decoded feature
list is nonempty, Python `None` otherwise. -/
def wfsGetFeature (srv : WfsServer) (args : WfsArgs) (calls : Nat) :
    Except String (Option (String → String) × Nat) := do
  let calls ← wfsCheckFeature srv args.feature_type calls
  let calls := calls + 1
  match srv.features with
  | [] => .ok (none, calls)
  | f :: _ => .ok (some f, calls)

/-- Embedding of `WFSConnectionPool.get_class`: one `GetFeature&featureID`
round-trip resolving the class value. -/
def wfsGetClass (srv : WfsServer) (featureID class_property_name ft_name : String)
    (calls : Nat) : String × Nat :=
  (srv.classValue, calls + 1)

/-- Python exception propagation: `none` becomes a raised `ValueError`. -/
def ofOption {α : Type} (o : Option α) : Except String α :=
  match o with
  | some a => .ok a
  | none => .error "ValueError"

/-- Embedding of `WFSDataSource.get_trajectory`: the four-way branch on
`(classification_class.get_type() == "Literal", temporal["type"] == "STRING")`.
`strftime` is the Python `datetime.strftime` collaborator.  The result is
`none` for the bare `return` of the Attribute × STRING short-circuit and
`some result` for the final `return result` (possibly the empty list). -/
def wfsGetTrajectory (strftime : Date → String → String) (srv : WfsServer)
    (feature_type : String) (temporal : Temporal) (x y : String) (obs : Obs)
    (geom_property : GeomProperty) (classification_class : ClassificationClass)
    (start_date end_date : Option String) (calls : Nat) :
    Except String (Option (List String) × Nat) :=
  let class_property_name := classification_class.class_property_name
  let class_name := classification_class.name
  let class_type := classification_class.type
  let args : WfsArgs := { feature_type := feature_type, geom := (x, y),
                          geom_property := geom_property,
                          srid := geom_property.srid }
  if class_type = "Literal" ∧ temporal.type = "STRING" then do
    let (response, calls) ← wfsGetFeature srv args calls
    let obs_tm ← ofOption (get_date_from_str obs.temporal_property false)
    match response with
    | some _ =>
      return (some [obs.class_property_name, strftime obs_tm temporal.string_format], calls)
    | none => return (some [], calls)
  else if class_type = "Literal" ∧ temporal.type ≠ "STRING" then do
    let args := { args with propertyName := some obs.temporal_property }
    let args ← (match start_date with
      | some sd => do
        let d ← ofOption (get_date_from_str sd false)
        let v := "AND " ++ obs.temporal_property ++ " >= " ++
          strftime d temporal.string_format
        pure { args with start_date := some v }
      | none => pure args)
    let args ← (match end_date with
      | some ed => do
        let d ← ofOption (get_date_from_str ed false)
        let v := "AND " ++ obs.temporal_property ++ " <= " ++
          strftime d temporal.string_format
        pure { args with end_date := some v }
      | none => pure args)
    let (response, calls) ← wfsGetFeature srv args calls
    match response with
    | some p => return (some [obs.class_property_name, p obs.temporal_property], calls)
    | none => return (some [], calls)
  else if class_type ≠ "Literal" ∧ temporal.type = "STRING" then do
    let obs_temporal ← ofOption (get_date_from_str obs.temporal_property false)
    match start_date with
    | some sd =>
      let d ← ofOption (get_date_from_str sd false)
      if dateLt obs_temporal d then return (none, calls) else pure ()
    | none => pure ()
    match end_date with
    | some ed =>
      let d ← ofOption (get_date_from_str ed false)
      if dateLt d obs_temporal then return (none, calls) else pure ()
    | none => pure ()
    let pn := obs.class_property ++ "," ++ obs.temporal_property
    let args := { args with propertyName := some pn }
    let (response, calls) ← wfsGetFeature srv args calls
    match response with
    | some p =>
      let featureID := p obs.class_property
      let r := wfsGetClass srv featureID class_property_name class_name calls
      return (some [r.1, obs.temporal_property], r.2)
    | none => return (some [], calls)
  else do
    let pn := obs.class_property ++ "," ++ obs.temporal_property
    let args := { args with propertyName := some pn }
    let args ← (match start_date with
      | some sd => do
        let d ← ofOption (get_date_from_str sd false)
        let v := "AND " ++ obs.temporal_property ++ " >= " ++
          strftime d temporal.string_format
        pure { args with start_date := some v }
      | none => pure args)
    let args ← (match end_date with
      | some ed => do
        let d ← ofOption (get_date_from_str ed false)
        let v := "AND " ++ obs.temporal_property ++ " <= " ++
          strftime d temporal.string_format
        pure { args with end_date := some v }
      | none => pure args)
    let (response, calls) ← wfsGetFeature srv args calls
    match response with
    | some p =>
      let featureID := p obs.class_property
      let r := wfsGetClass srv featureID class_property_name class_name calls
      return (some [r.1, p obs.temporal_property], r.2)
    | none => return (some [], calls)

/-! Concrete instances used by witnesses and counterexamples. -/

def srvOne : WfsServer :=
  { featureTypes := ["ft"], features := [fun _ => "v"], classValue := "classval" }

def srvEmpty : WfsServer :=
  { featureTypes := ["ft"], features := [], classValue := "classval" }

def tempString : Temporal := { type := "STRING", string_format := "fmt" }

def tempDate : Temporal := { type := "DATE", string_format := "fmt" }

def clsLiteral : ClassificationClass :=
  { name := "cn", id := "cid", class_property_name := "cpn", type := "Literal" }

def clsAttribute : ClassificationClass :=
  { name := "cn", id := "cid", class_property_name := "cpn", type := "Attribute" }

def obsSample : Obs :=
  { temporal_property := "2020-01-01", class_property := "cp",
    class_property_name := "opn" }

def gpSample : GeomProperty := { property_name := "geom", srid := "4326" }

def fmtOracle : Date → String → String := fun _ _ => "fmtdate"

/-! ### WCS backend (`wlts/datasources/wcs.py`)

The raster fetch-and-decode pipeline (`_get_image` / `open_image`) is an
oracle `fetch` from the request parameters to the extracted pixel value
(`none` for an undecodable or empty response); the `@lru_cache()` decorator
on `WCS.get_image` is modelled with `functools.lru_cache`'s default bound of
128 entries: a hit refreshes recency, a miss inserts at the front and evicts
the least recently used entry beyond the bound.  Coordinates are rationals
(the float formatting of the URL is external to the cache semantics, which
only compare keys for equality). -/

/-- Argument tuple of `WCS.get_image`, in the source's parameter order
`(image, srid, min_x, max_x, min_y, max_y, column, row, time, x, y)`; the
whole tuple is the memoization key of `@lru_cache()`. -/
structure ImageKey where
  image : String
  srid : String
  min_x : Rat
  max_x : Rat
  min_y : Rat
  max_y : Rat
  column : Nat
  row : Nat
  time : String
  x : Rat
  y : Rat
deriving DecidableEq

structure WCSState where
  cache : List (ImageKey × Option Int)
  fetchCount : Nat

/-- Default bound of `functools.lru_cache()` (the decorator is applied with
no `maxsize` argument). -/
def lruMaxsize : Nat := 128

def cacheFind (c : List (ImageKey × Option Int)) (k : ImageKey) :
    Option (Option Int) :=
  match c.find? (fun p => decide (p.1 = k)) with
  | some p => some p.2
  | none => none

/-- Embedding of the `@lru_cache()`-decorated `WCS.get_image`: on a cache hit
return the cached value (refreshing its recency, no fetch); on a miss run the
fetch pipeline, record the result as most recent, and drop the least recently
used entry when the bound is exceeded. -/
def wcsGetImage (fetch : ImageKey → Option Int) (k : ImageKey)
    (st : WCSState) : Option Int × WCSState :=
  match cacheFind st.cache k with
  | some v =>
    (v, { st with cache := (k, v) :: st.cache.eraseP (fun p => decide (p.1 = k)) })
  | none =>
    let v := fetch k
    let c := (k, v) :: st.cache
    let c := if lruMaxsize < c.length then c.take lruMaxsize else c
    (v, { cache := c, fetchCount := st.fetchCount + 1 })

structure Grid where
  column : Nat
  row : Nat

/-- Radius of `Point(x, y).buffer(0.002)`. -/
def bufferRadius : Rat := 2 / 1000

/-- Bounds `(minx, miny, maxx, maxy)` of `Point(x, y).buffer(0.002)` (the
buffer polygon's extreme vertices lie on the axis directions). -/
def bufferBounds (x y : Rat) : Rat × Rat × Rat × Rat :=
  (x - bufferRadius, y - bufferRadius, x + bufferRadius, y + bufferRadius)

/-- Embedding of `WCSDataSource.get_trajectory` (wlts/datasources/wcs.py):
parse the observation time (`wlts.utils.get_date_from_str` is the
identically-named function embedded above), compare it client-side against
the optional bounds before any fetch, then call `get_image`.  The call site
passes `(min_x, min_y, max_x, max_y)` positionally into `get_image`'s
`(min_x, max_x, min_y, max_y)` parameters, so the key is built with exactly
that argument order. -/
def wcsGetTrajectory (fetch : ImageKey → Option Int)
    (workspace image : String) (temporal : Temporal) (x y : Rat)
    (srid : String) (grid : Grid) (start_date end_date : Option String)
    (time : String) (st : WCSState) :
    Except String (Option Int × WCSState) := do
  let ts ← ofOption (get_date_from_str time false)
  match start_date with
  | some sd =>
    let d ← ofOption (get_date_from_str sd false)
    if dateLt ts d then return (none, st) else pure ()
  | none => pure ()
  match end_date with
  | some ed =>
    let d ← ofOption (get_date_from_str ed false)
    if dateLt d ts then return (none, st) else pure ()
  | none => pure ()
  let image_name := workspace ++ ":" ++ image
  let b := bufferBounds x y
  let key := ImageKey.mk image_name srid b.1 b.2.1 b.2.2.1 b.2.2.2
    grid.column grid.row time x y
  let r := wcsGetImage fetch key st
  return (r.1, r.2)

/-! Concrete WCS instances for witnesses and counterexamples. -/

def imageKeyZero : ImageKey := ImageKey.mk "" "" 0 0 0 0 0 0 "" 0 0

def imageKeyN (i : Nat) : ImageKey := { imageKeyZero with column := i }

def fetchConst : ImageKey → Option Int := fun _ => some 7

/-- Run a sequence of `get_image` calls (keys indexed by naturals) from the
empty cache. -/
def wcsRun (l : List Nat) : WCSState :=
  l.foldl (fun st i => (wcsGetImage fetchConst (imageKeyN i) st).2)
    { cache := [], fetchCount := 0 }

/-! ### Raster pixel indexing (`WCS.transform_latlong_to_rowcol`)

The `osr` coordinate transformation built from the dataset's own projection
(`srs.CloneGeogCS()` → `srs`) is an oracle `ct` taking that projection and
the `(long, lat)` pair; the affine geotransform is the 6-tuple returned by
`GetGeoTransform`.  Python `int()` truncates toward zero. -/

structure GeoTransform where
  t0 : Rat
  t1 : Rat
  t2 : Rat
  t3 : Rat
  t4 : Rat
  t5 : Rat

structure RasterDataset where
  projection : String
  geotransform : GeoTransform

/-- Python `int()` on a rational: truncation toward zero. -/
def pyInt (q : Rat) : Int := q.num.tdiv (q.den : Int)

/-- Embedding of `WCS.transform_latlong_to_rowcol`: project `(long, lat)`
through the transformation derived from the dataset's own projection, then
`x = int((x - transform[0]) / transform[1])` and
`y = int((transform[3] - y) / -transform[5])`. -/
def transform_latlong_to_rowcol (ct : String → Rat × Rat → Rat × Rat)
    (data_set : RasterDataset) (lat long : Rat) : Int × Int :=
  let p := ct data_set.projection (long, lat)
  let t := data_set.geotransform
  let x := pyInt ((p.1 - t.t0) / t.t1)
  let y := pyInt ((t.t3 - p.2) / (-t.t5))
  (x, y)

/-- Spec formula for the pixel index: project into the raster's CRS, then
`col = floor((x - origin_x) / pixel_width)`,
`row = floor((origin_y - y) / pixel_height)` with origin `(t0, t3)`, pixel
width `t1` and pixel height `-t5` from the geotransform. -/
def specRowcolFloor (ct : String → Rat × Rat → Rat × Rat)
    (ds : RasterDataset) (lat long : Rat) : Int × Int :=
  let p := ct ds.projection (long, lat)
  let t := ds.geotransform
  (Int.floor ((p.1 - t.t0) / t.t1), Int.floor ((t.t3 - p.2) / (-t.t5)))

/-- Identity coordinate transformation (projection already geographic). -/
def ctId : String → Rat × Rat → Rat × Rat := fun _ p => p

def dsSample : RasterDataset :=
  { projection := "",
    geotransform := { t0 := 0, t1 := 1, t2 := 0, t3 := 0, t4 := 0, t5 := -1 } }

/-! ### Backend factory and registry
(`DataSourceFactory.make`, `DataSourceManager.insert_datasource`)

The `eval`-based construction of the source is modelled as direct dispatch to
a backend kind (the constructors' transport side effects are outside this
embedding); the Python `KeyError` raised by `factorys[dsType]` for an
unrecognized tag is `.error`. -/

inductive DataSourceKind where
  | postgis
  | wcs
  | wfs
deriving DecidableEq, Repr

def factorys : List (String × DataSourceKind) :=
  [("POSTGIS", DataSourceKind.postgis), ("WCS", DataSourceKind.wcs),
   ("WFS", DataSourceKind.wfs)]

/-- Embedding of `DataSourceFactory.make(dsType, id, connInfo)`: look the tag
up in `factorys` (a `KeyError` for an unknown tag) and construct the matching
backend. -/
def DataSourceFactory_make (dsType connId : String) :
    Except String DataSourceKind :=
  match factorys.lookup dsType with
  | none => .error ("KeyError: " ++ dsType)
  | some k => .ok k

/-- Section keys of the `_datasources` registry dict. -/
def managerSections : List String :=
  ["webservice_source", "dbms_source", "file_source"]

/-- Embedding of `DataSourceManager.insert_datasource`: resolve the registry
section (a `KeyError` for an unknown section key), then run the factory on
the configured type tag; both happen during `load_all`, i.e. at registry-load
time. -/
def insert_datasource (sectionKey connType connId : String) :
    Except String DataSourceKind :=
  if sectionKey ∈ managerSections then DataSourceFactory_make connType connId
  else .error ("KeyError: " ++ sectionKey)

end Wlts

namespace Wlts

/-! ### Helper lemmas -/

theorem str_append_ne_empty_left (a b : String) (h : a.length ≠ 0) :
    a ++ b ≠ "" := by
  intro hc
  apply h
  have hlen := congrArg String.length hc
  rw [String.length_append] at hlen
  have h0 : ("" : String).length = 0 := rfl
  omega

theorem cacheFind_cons_self (k : ImageKey) (v : Option Int)
    (c : List (ImageKey × Option Int)) : cacheFind ((k, v) :: c) k = some v := by
  simp [cacheFind, List.find?]

/-- After any `get_image` call the key just requested sits at the front of
the cache, mapped to the value just returned. -/
theorem wcsGetImage_head (fetch : ImageKey → Option Int) (k : ImageKey)
    (st : WCSState) :
    ∃ c, ((wcsGetImage fetch k st).2).cache =
      (k, (wcsGetImage fetch k st).1) :: c := by
  cases h : cacheFind st.cache k with
  | some v =>
    refine ⟨st.cache.eraseP (fun p => decide (p.1 = k)), ?_⟩
    simp [wcsGetImage, h]
  | none =>
    by_cases hl : lruMaxsize < ((k, fetch k) :: st.cache).length
    · refine ⟨st.cache.take 127, ?_⟩
      have htake : ((k, fetch k) :: st.cache).take lruMaxsize =
          (k, fetch k) :: st.cache.take 127 := by
        rw [show lruMaxsize = 127 + 1 from rfl, List.take_succ_cons]
      simp only [wcsGetImage, h]
      rw [if_pos hl, htake]
    · refine ⟨st.cache, ?_⟩
      simp only [wcsGetImage, h]
      rw [if_neg hl]

/-- The `get_image` hit path leaves the fetch counter unchanged and returns
the cached value. -/
theorem wcsGetImage_hit (fetch : ImageKey → Option Int) (k : ImageKey)
    (st : WCSState) (v : Option Int) (h : cacheFind st.cache k = some v) :
    (wcsGetImage fetch k st).1 = v ∧
    ((wcsGetImage fetch k st).2).fetchCount = st.fetchCount := by
  simp [wcsGetImage, h]

/-- Python `int()` agrees with `floor` on nonnegative rationals. -/
theorem pyInt_eq_floor (q : Rat) (h : 0 ≤ q) : pyInt q = Int.floor q := by
  have hnum : 0 ≤ q.num := Rat.num_nonneg.mpr h
  have hden : 0 ≤ (q.den : Int) := Int.natCast_nonneg _
  rw [pyInt, Int.tdiv_eq_ediv hnum hden, Rat.floor_def]

/-- Truncation toward zero is an odd function. -/
theorem pyInt_neg (q : Rat) : pyInt (-q) = -(pyInt q) := by
  have hnum : (-q).num = -q.num := rfl
  have hden : (-q).den = q.den := rfl
  rw [pyInt, pyInt, hnum, hden, Int.neg_tdiv]

/-- Auxiliary: in the Attribute × STRING branch, a start bound whose parsed
value exceeds the parsed observation temporal value makes `get_trajectory`
bare-return before any service call. -/
theorem wfs_start_excl_aux (strftime : Date → String → String)
    (srv : WfsServer) (ft : String) (temporal : Temporal) (x y : String)
    (obs : Obs) (gp : GeomProperty) (cls : ClassificationClass) (sd : String)
    (ed : Option String) (calls : Nat) (od d : Date)
    (hct : cls.type ≠ "Literal") (htt : temporal.type = "STRING")
    (hobs : get_date_from_str obs.temporal_property false = some od)
    (hsd : get_date_from_str sd false = some d)
    (hlt : dateLt od d = true) :
    wfsGetTrajectory strftime srv ft temporal x y obs gp cls (some sd) ed calls =
      .ok (none, calls) := by
  simp [wfsGetTrajectory, hct, htt, hobs, hsd, hlt, ofOption, Bind.bind,
    Except.bind, pure, Except.pure]

/-- Auxiliary: in the Attribute × STRING branch, when the start bound is
absent or does not exclude, an end bound whose parsed value is below the
parsed observation temporal value makes `get_trajectory` bare-return before
any service call. -/
theorem wfs_end_excl_aux (strftime : Date → String → String)
    (srv : WfsServer) (ft : String) (temporal : Temporal) (x y : String)
    (obs : Obs) (gp : GeomProperty) (cls : ClassificationClass)
    (sd? : Option String) (ed : String) (calls : Nat) (od d2 : Date)
    (hct : cls.type ≠ "Literal") (htt : temporal.type = "STRING")
    (hobs : get_date_from_str obs.temporal_property false = some od)
    (hstart : sd? = none ∨ ∃ sd d, sd? = some sd ∧
      get_date_from_str sd false = some d ∧ dateLt od d = false)
    (hed : get_date_from_str ed false = some d2)
    (hlt : dateLt d2 od = true) :
    wfsGetTrajectory strftime srv ft temporal x y obs gp cls sd? (some ed) calls =
      .ok (none, calls) := by
  rcases hstart with h | ⟨sd, d, h, hsd, hflt⟩
  · subst h
    simp [wfsGetTrajectory, hct, htt, hobs, hed, hlt, ofOption,
      Bind.bind, Except.bind, pure, Except.pure]
  · subst h
    simp [wfsGetTrajectory, hct, htt, hobs, hsd, hflt, hed, hlt, ofOption,
      Bind.bind, Except.bind, pure, Except.pure]

/-- Auxiliary: with no date bounds, a parsable observation temporal value, an
existing feature type and a server answering zero features, every branch of
`WFSDataSource.get_trajectory` returns the empty result list. -/
theorem wfs_empty_features_aux (strftime : Date → String → String)
    (srv : WfsServer) (ft : String) (temporal : Temporal) (x y : String)
    (obs : Obs) (gp : GeomProperty) (cls : ClassificationClass) (calls : Nat)
    (od : Date)
    (hft : ft ∈ srv.featureTypes) (hfe : srv.features = [])
    (hobs : get_date_from_str obs.temporal_property false = some od) :
    (wfsGetTrajectory strftime srv ft temporal x y obs gp cls
      none none calls).map (fun r => r.1) = .ok (some []) := by
  by_cases h1 : cls.type = "Literal" <;> by_cases h2 : temporal.type = "STRING" <;>
    simp [wfsGetTrajectory, wfsGetFeature, wfsCheckFeature, wfsListFeature,
      wfsGetClass, h1, h2, hft, hfe, hobs, ofOption, Bind.bind, Except.bind,
      pure, Except.pure, Except.map]

end Wlts

namespace Wlts

/-! ### C1 theorems -/

/-- C1 counterexample: the claim maps "2020-05" (as an upper reference bound)
to May 31, 2020 and "2020-05-17" to May 17, 2020 unchanged; the code's
`date.replace(day=31, month=12)` instead yields December 31, 2020 for both. -/
theorem c1_counterexample :
    get_date_from_str "2020-05" true = some ⟨2020, 12, 31⟩ ∧
    (some (⟨2020, 12, 31⟩ : Date) ≠ some ⟨2020, 5, 31⟩) ∧
    get_date_from_str "2020-05-17" true = some ⟨2020, 12, 31⟩ ∧
    (some (⟨2020, 12, 31⟩ : Date) ≠ some ⟨2020, 5, 17⟩) := by
  refine ⟨rfl, by decide, rfl, by decide⟩

/-- C1 amended: under the reference-bound flag `get_date_from_str` normalizes
every successfully parsed date string — year-only, year-month, or full
year-month-day — to December 31 of its parsed year; "2020" ↦ 2020-12-31,
"2020-05" ↦ 2020-12-31, "2020-05-17" ↦ 2020-12-31, and without the flag
"2020-05-17" is returned exactly. -/
theorem c1_dateref_normalizes_to_year_end :
    (∀ s d, get_date_from_str s false = some d →
      get_date_from_str s true = some ⟨d.year, 12, 31⟩) ∧
    get_date_from_str "2020" true = some ⟨2020, 12, 31⟩ ∧
    get_date_from_str "2020-05" true = some ⟨2020, 12, 31⟩ ∧
    get_date_from_str "2020-05-17" true = some ⟨2020, 12, 31⟩ ∧
    get_date_from_str "2020-05-17" false = some ⟨2020, 5, 17⟩ := by
  refine ⟨?_, rfl, rfl, rfl, rfl⟩
  intro s d h
  unfold get_date_from_str at h ⊢
  cases hp : (strptimeYMD (pyReplaceSlashDash s.data)) <|>
      (strptimeYM (pyReplaceSlashDash s.data)) <|>
      (strptimeY (pyReplaceSlashDash s.data)) with
  | none => simp [hp] at h
  | some d0 =>
    simp only [hp, Option.some.injEq, if_neg, if_pos, Bool.false_eq_true,
      not_false_eq_true] at h ⊢
    subst h
    rfl

/-- C1 witness: the general normalization statement applied to the concrete
input "1999/07" (also exercising the `/` → `-` replacement). -/
theorem c1_witness :
    get_date_from_str "1999/07" false = some ⟨1999, 7, 1⟩ ∧
    get_date_from_str "1999/07" true = some ⟨1999, 12, 31⟩ :=
  ⟨rfl, c1_dateref_normalizes_to_year_end.1 "1999/07" ⟨1999, 7, 1⟩ rfl⟩

/-! ### C2 theorem -/

/-- C2: for every combination of classification kind (`Literal` vs any other
kind, i.e. `Attribute`) and temporal kind (`STRING` vs other), the SQL text
built by `PostGisDataSource.get_trajectory` equals the spec's §4.1
decision-table assembly (quoted literal class constant vs joined class
column, quoted vs raw temporal value, second source plus identifier-equality
predicate exactly for the Attribute kind); the join predicate is empty iff
the kind is `Literal`, and the spatial containment predicate over the
supplied geometry property and SRID is an infix of every generated query. -/
theorem c2_postgis_query_shape (ft tt x y : String) (obs : Obs)
    (gp : GeomProperty) (cls : ClassificationClass) (sd ed : Option String) :
    postgisTrajectorySql ft tt x y obs gp cls sd ed =
      specQuery ft tt x y obs gp cls sd ed ∧
    (specJoinPred obs cls = "" ↔ cls.type = "Literal") ∧
    (∃ pre post, specQuery ft tt x y obs gp cls sd ed =
      pre ++ specSpatialPred x y gp ++ post) := by
  refine ⟨?_, ?_, ?_⟩
  · by_cases h1 : cls.type = "Literal" <;> by_cases h2 : tt = "STRING" <;>
      cases sd <;> cases ed <;>
      simp only [postgisTrajectorySql, specQuery, specClassExpr, specDateExpr,
        specFromClause, specSpatialPred, specJoinPred, specDateBound, h1, h2,
        if_pos, if_neg, not_false_eq_true, not_true_eq_false, and_self,
        and_true, true_and, and_false, false_and, if_true, if_false,
        String.append_assoc, String.append_empty, ne_eq]
  · constructor
    · intro h
      by_contra hne
      have : specJoinPred obs cls =
          " AND dado." ++ (obs.class_property ++ (" = class." ++ (cls.id ++ " "))) := by
        simp [specJoinPred, hne, String.append_assoc]
      rw [this] at h
      exact str_append_ne_empty_left " AND dado."
        (obs.class_property ++ (" = class." ++ (cls.id ++ " "))) (by decide) h
    · intro h
      simp [specJoinPred, h]
  · exact ⟨"SELECT" ++ " " ++ specClassExpr cls ++ " AS classe, " ++
      specDateExpr tt obs ++ " AS data " ++ specFromClause ft cls,
      specJoinPred obs cls ++ specDateBound " >= " tt obs sd ++
        specDateBound " <= " tt obs ed,
      by simp [specQuery, String.append_assoc]⟩

/-! ### C3 theorem -/

/-- C3: the database-backend `get_trajectory` returns exactly the first row
of the executed query's result set when at least one row comes back, and the
absence marker `none` (Python `None`) when zero rows come back — i.e. its
result is `List.head?` of the result set, never an error. -/
theorem c3_postgis_first_row_or_none (execute : String → List (List String))
    (ft tt x y : String) (obs : Obs) (gp : GeomProperty)
    (cls : ClassificationClass) (sd ed : Option String) :
    postgisGetTrajectory execute ft tt x y obs gp cls sd ed =
      (execute (postgisTrajectorySql ft tt x y obs gp cls sd ed)).head? := by
  unfold postgisGetTrajectory
  cases h : execute (postgisTrajectorySql ft tt x y obs gp cls sd ed) <;> simp [h]

/-! ### C4 theorems -/

/-- C4 counterexample: a Literal-classification trajectory against the
feature-service backend issues 2 service calls, not 1 — `get_feature` always
re-runs the `check_feature` existence check, which performs a fresh
`list_feature` round-trip on every request (nothing is cached), and then the
main `GetFeature` request. -/
theorem c4_counterexample :
    (wfsGetTrajectory fmtOracle srvOne "ft" tempString "0" "0" obsSample
      gpSample clsLiteral none none 0).map (fun r => r.2) = .ok 2 ∧
    (2 : Nat) ≠ 1 :=
  ⟨rfl, by decide⟩

/-- C4 amended: each `WFSDataSource.get_trajectory` invocation (no date
bounds, feature type present, parsable observation temporal value, at least
one feature answered) issues exactly 2 service calls for Literal
classification branches (the uncached `list_feature` existence round-trip
plus the main query) and exactly 3 for Attribute branches (those two plus the
class lookup by feature identifier); the existence check is recomputed on
every call, not cached. -/
theorem c4_wfs_call_counts (strftime : Date → String → String)
    (srv : WfsServer) (ft : String) (temporal : Temporal) (x y : String)
    (obs : Obs) (gp : GeomProperty) (cls : ClassificationClass) (calls : Nat)
    (od : Date) (f : String → String) (fs : List (String → String))
    (hft : ft ∈ srv.featureTypes) (hfe : srv.features = f :: fs)
    (hobs : get_date_from_str obs.temporal_property false = some od) :
    (wfsGetTrajectory strftime srv ft temporal x y obs gp cls
      none none calls).map (fun r => r.2) =
      .ok (calls + (if cls.type = "Literal" then 2 else 3)) := by
  by_cases h1 : cls.type = "Literal" <;> by_cases h2 : temporal.type = "STRING" <;>
    simp [wfsGetTrajectory, wfsGetFeature, wfsCheckFeature, wfsListFeature,
      wfsGetClass, h1, h2, hft, hfe, hobs, ofOption, Bind.bind, Except.bind,
      pure, Except.pure, Except.map, Nat.add_assoc]

/-- C4 witness: the amended call-count statement applied to a concrete
Attribute × non-STRING configuration, giving exactly 3 calls. -/
theorem c4_wfs_call_counts_witness :
    (wfsGetTrajectory fmtOracle srvOne "ft" tempDate "0" "0" obsSample
      gpSample clsAttribute none none 0).map (fun r => r.2) = .ok 3 := by
  have h := c4_wfs_call_counts fmtOracle srvOne "ft" tempDate "0" "0"
    obsSample gpSample clsAttribute 0 ⟨2020, 1, 1⟩ (fun _ => "v") []
    (by decide) rfl rfl
  simpa using h

/-! ### C5 theorem -/

/-- C5: in the feature-service backend's Attribute × STRING branch, whenever
the locally parsed observation temporal value is excluded by a supplied bound
(parsed start bound strictly above it, or — with the start bound absent or
non-excluding — parsed end bound strictly below it), `get_trajectory`
bare-returns the absence marker with the service call counter unchanged: no
feature-service request is issued. -/
theorem c5_wfs_attr_string_short_circuit (strftime : Date → String → String)
    (srv : WfsServer) (ft : String) (temporal : Temporal) (x y : String)
    (obs : Obs) (gp : GeomProperty) (cls : ClassificationClass)
    (start_date end_date : Option String) (calls : Nat) (od : Date)
    (hct : cls.type ≠ "Literal") (htt : temporal.type = "STRING")
    (hobs : get_date_from_str obs.temporal_property false = some od)
    (hexcl :
      (∃ sd d, start_date = some sd ∧
        get_date_from_str sd false = some d ∧ dateLt od d = true) ∨
      ((start_date = none ∨ ∃ sd d, start_date = some sd ∧
          get_date_from_str sd false = some d ∧ dateLt od d = false) ∧
        ∃ ed d2, end_date = some ed ∧
          get_date_from_str ed false = some d2 ∧ dateLt d2 od = true)) :
    wfsGetTrajectory strftime srv ft temporal x y obs gp cls
      start_date end_date calls = .ok (none, calls) := by
  rcases hexcl with ⟨sd, d, h, hsd, hlt⟩ | ⟨hstart, ed, d2, h, hed, hlt⟩
  · subst h
    exact wfs_start_excl_aux strftime srv ft temporal x y obs gp cls sd
      end_date calls od d hct htt hobs hsd hlt
  · subst h
    exact wfs_end_excl_aux strftime srv ft temporal x y obs gp cls start_date
      ed calls od d2 hct htt hobs hstart hed hlt

/-- C5 witness: observation temporal "2020-01-01" with start bound "2021"
short-circuits with `none` and an unchanged call counter. -/
theorem c5_witness :
    wfsGetTrajectory fmtOracle srvOne "ft" tempString "0" "0" obsSample
      gpSample clsAttribute (some "2021") none 5 = .ok (none, 5) :=
  c5_wfs_attr_string_short_circuit fmtOracle srvOne "ft" tempString "0" "0"
    obsSample gpSample clsAttribute (some "2021") none 5 ⟨2020, 1, 1⟩
    (by decide) rfl rfl (Or.inl ⟨"2021", ⟨2021, 1, 1⟩, rfl, rfl, rfl⟩)

/-! ### C10 theorem -/

/-- C10: `WFSDataSource.get_trajectory` uses two distinct absence values: the
Attribute × STRING out-of-bound short-circuit bare-returns `none` (Python
`None`), while a query matching zero features returns `some []` (the empty
result list) in every branch — so there is no single uniform absence
marker. -/
theorem c10_wfs_two_absence_markers :
    (∀ (strftime : Date → String → String) (srv : WfsServer) (ft : String)
        (temporal : Temporal) (x y : String) (obs : Obs) (gp : GeomProperty)
        (cls : ClassificationClass) (sd : String) (ed : Option String)
        (calls : Nat) (od d : Date),
      cls.type ≠ "Literal" → temporal.type = "STRING" →
      get_date_from_str obs.temporal_property false = some od →
      get_date_from_str sd false = some d → dateLt od d = true →
      wfsGetTrajectory strftime srv ft temporal x y obs gp cls
        (some sd) ed calls = .ok (none, calls)) ∧
    (∀ (strftime : Date → String → String) (srv : WfsServer) (ft : String)
        (temporal : Temporal) (x y : String) (obs : Obs) (gp : GeomProperty)
        (cls : ClassificationClass) (calls : Nat) (od : Date),
      ft ∈ srv.featureTypes → srv.features = [] →
      get_date_from_str obs.temporal_property false = some od →
      (wfsGetTrajectory strftime srv ft temporal x y obs gp cls
        none none calls).map (fun r => r.1) = .ok (some [])) :=
  ⟨fun strftime srv ft temporal x y obs gp cls sd ed calls od d hct htt hobs hsd hlt =>
    wfs_start_excl_aux strftime srv ft temporal x y obs gp cls sd ed calls od d
      hct htt hobs hsd hlt,
  fun strftime srv ft temporal x y obs gp cls calls od hft hfe hobs =>
    wfs_empty_features_aux strftime srv ft temporal x y obs gp cls calls od
      hft hfe hobs⟩

/-- C10 witness: the short-circuit returns the bare `none` marker while an
empty feature list yields the `some []` marker, at concrete inputs. -/
theorem c10_witness :
    wfsGetTrajectory fmtOracle srvOne "ft" tempString "0" "0" obsSample
      gpSample clsAttribute (some "2021") none 0 = .ok (none, 0) ∧
    (wfsGetTrajectory fmtOracle srvEmpty "ft" tempString "0" "0" obsSample
      gpSample clsLiteral none none 0).map (fun r => r.1) = .ok (some []) :=
  ⟨c10_wfs_two_absence_markers.1 fmtOracle srvOne "ft" tempString "0" "0"
      obsSample gpSample clsAttribute "2021" none 0 ⟨2020, 1, 1⟩ ⟨2021, 1, 1⟩
      (by decide) rfl rfl rfl rfl,
    c10_wfs_two_absence_markers.2 fmtOracle srvEmpty "ft" tempString "0" "0"
      obsSample gpSample clsLiteral 0 ⟨2020, 1, 1⟩ (by decide) rfl rfl⟩

/-! ### C6 theorems -/

/-- C6 counterexample: `@lru_cache()` is bounded at 128 entries, so memoization
does not last for the process lifetime.  Key 0 is requested, then 128 distinct
other keys, then key 0 again: the first 129 calls each fetch (count 129), and
the repeat of key 0 — an invocation with an argument tuple identical to an
earlier one in the same process — fetches again (count 130), because key 0
was evicted. -/
theorem c6_counterexample :
    (wcsRun (List.range 129)).fetchCount = 129 ∧
    (wcsGetImage fetchConst (imageKeyN 0) (wcsRun (List.range 129))).2.fetchCount
      = 130 := by
  constructor
  · decide
  · decide

/-- C6 amended: memoization on the full argument tuple holds as long as the
key has not been evicted from the 128-entry LRU cache — in particular, an
invocation immediately repeating the previous invocation's argument tuple
issues no fetch (the counter is unchanged) and returns the same value. -/
theorem c6_repeat_hits_cache (fetch : ImageKey → Option Int) (k : ImageKey)
    (st : WCSState) :
    (wcsGetImage fetch k (wcsGetImage fetch k st).2).1 =
      (wcsGetImage fetch k st).1 ∧
    ((wcsGetImage fetch k (wcsGetImage fetch k st).2).2).fetchCount =
      ((wcsGetImage fetch k st).2).fetchCount := by
  obtain ⟨c, hc⟩ := wcsGetImage_head fetch k st
  have hfind : cacheFind ((wcsGetImage fetch k st).2).cache k =
      some ((wcsGetImage fetch k st).1) := by
    rw [hc]
    exact cacheFind_cons_self _ _ _
  exact wcsGetImage_hit fetch k _ _ hfind

/-! ### C7 theorem -/

/-- C7: when the parsed observation time of a raster-service trajectory query
lies strictly before the parsed start bound (or, with the start bound absent
or non-excluding, strictly after the parsed end bound),
`WCSDataSource.get_trajectory` returns `none` with the state — including the
fetch counter — unchanged: the temporal filter runs client-side before any
network call. -/
theorem c7_wcs_client_side_temporal_filter (fetch : ImageKey → Option Int)
    (workspace image : String) (temporal : Temporal) (x y : Rat)
    (srid : String) (grid : Grid) (start_date end_date : Option String)
    (time : String) (st : WCSState) (ts : Date)
    (hts : get_date_from_str time false = some ts)
    (hexcl :
      (∃ sd d, start_date = some sd ∧
        get_date_from_str sd false = some d ∧ dateLt ts d = true) ∨
      ((start_date = none ∨ ∃ sd d, start_date = some sd ∧
          get_date_from_str sd false = some d ∧ dateLt ts d = false) ∧
        ∃ ed d2, end_date = some ed ∧
          get_date_from_str ed false = some d2 ∧ dateLt d2 ts = true)) :
    wcsGetTrajectory fetch workspace image temporal x y srid grid
      start_date end_date time st = .ok (none, st) := by
  rcases hexcl with ⟨sd, d, h, hsd, hlt⟩ | ⟨hstart, ed, d2, h, hed, hlt⟩
  · subst h
    simp [wcsGetTrajectory, hts, hsd, hlt, ofOption, Bind.bind, Except.bind,
      pure, Except.pure]
  · subst h
    rcases hstart with h0 | ⟨sd, d, h0, hsd, hflt⟩
    · subst h0
      simp [wcsGetTrajectory, hts, hed, hlt, ofOption, Bind.bind, Except.bind,
        pure, Except.pure]
    · subst h0
      simp [wcsGetTrajectory, hts, hsd, hflt, hed, hlt, ofOption, Bind.bind,
        Except.bind, pure, Except.pure]

/-- C7 witness: observation time "2019" against start bound "2020" returns
`none` with the zero-fetch state unchanged. -/
theorem c7_witness :
    wcsGetTrajectory fetchConst "ws" "img" tempString 0 0 "4326"
      { column := 10, row := 10 } (some "2020") none "2019"
      { cache := [], fetchCount := 0 } =
      .ok (none, { cache := [], fetchCount := 0 }) :=
  c7_wcs_client_side_temporal_filter fetchConst "ws" "img" tempString 0 0
    "4326" { column := 10, row := 10 } (some "2020") none "2019"
    { cache := [], fetchCount := 0 } ⟨2019, 1, 1⟩ rfl
    (Or.inl ⟨"2020", ⟨2020, 1, 1⟩, rfl, rfl, rfl⟩)

/-! ### C8 theorems -/

/-- C8 counterexample: Python `int()` truncates toward zero, so for a point
half a pixel left of the raster origin the code computes column 0 while the
spec's floor formula gives column -1. -/
theorem c8_counterexample :
    transform_latlong_to_rowcol ctId dsSample 0 (-(1/2)) = (0, 0) ∧
    specRowcolFloor ctId dsSample 0 (-(1/2)) = (-1, 0) ∧
    ((0, 0) : Int × Int) ≠ (-1, 0) := by
  have e1 : ((ctId dsSample.projection (-(1/2), (0 : Rat))).1 -
      dsSample.geotransform.t0) / dsSample.geotransform.t1 = -(1/2) := by
    norm_num [ctId, dsSample]
  have e2 : (dsSample.geotransform.t3 -
      (ctId dsSample.projection (-(1/2), (0 : Rat))).2) /
      (-dsSample.geotransform.t5) = 0 := by
    norm_num [ctId, dsSample]
  have hhalf : Int.floor ((1 : Rat)/2) = 0 := by
    rw [Int.floor_eq_zero_iff]
    constructor <;> norm_num
  have hneg : Int.floor (-(1/2) : Rat) = -1 := by
    rw [Int.floor_eq_iff]
    constructor <;> norm_num
  refine ⟨?_, ?_, by decide⟩
  · simp only [transform_latlong_to_rowcol, e1, e2, Prod.mk.injEq]
    constructor
    · rw [pyInt_neg, pyInt_eq_floor _ (by norm_num), hhalf]
      norm_num
    · rw [pyInt_eq_floor _ le_rfl, Int.floor_zero]
  · simp only [specRowcolFloor, e1, e2, Prod.mk.injEq]
    exact ⟨hneg, Int.floor_zero⟩

/-- C8 amended: the pixel index is computed by projecting `(long, lat)`
through the transformation derived from the dataset's own projection (not the
caller's nominal SRID) and truncating `(x - origin_x) / pixel_width` and
`(origin_y - y) / pixel_height` toward zero (Python `int()`); this agrees
with the spec's floor formula whenever both offsets are nonnegative, i.e. for
points inside the raster extent. -/
theorem c8_rowcol_trunc_agrees_with_floor_on_nonneg
    (ct : String → Rat × Rat → Rat × Rat) (ds : RasterDataset)
    (lat long : Rat)
    (hcol : 0 ≤ ((ct ds.projection (long, lat)).1 - ds.geotransform.t0) /
      ds.geotransform.t1)
    (hrow : 0 ≤ (ds.geotransform.t3 - (ct ds.projection (long, lat)).2) /
      (-ds.geotransform.t5)) :
    transform_latlong_to_rowcol ct ds lat long =
      specRowcolFloor ct ds lat long := by
  simp only [transform_latlong_to_rowcol, specRowcolFloor]
  rw [pyInt_eq_floor _ hcol, pyInt_eq_floor _ hrow]

/-- C8 witness: at a point half a pixel right of the origin both formulas
give pixel (0, 0). -/
theorem c8_witness :
    transform_latlong_to_rowcol ctId dsSample 0 (1/2) =
      specRowcolFloor ctId dsSample 0 (1/2) :=
  c8_rowcol_trunc_agrees_with_floor_on_nonneg ctId dsSample 0 (1/2)
    (by norm_num [ctId, dsSample]) (by norm_num [ctId, dsSample])

/-! ### C9 theorem -/

/-- C9: a configured datasource entry whose backend-type tag is outside
{POSTGIS, WCS, WFS} makes `DataSourceFactory.make` fail (the Python
`KeyError` on the factory dict), and therefore makes
`DataSourceManager.insert_datasource` — run for every entry during
`load_all`, i.e. at registry-load time — fail for every registry section,
before any query-time code can run. -/
theorem c9_unknown_backend_fails_at_load (dsType connId : String)
    (h : dsType ∉ (["POSTGIS", "WCS", "WFS"] : List String)) :
    (∃ msg, DataSourceFactory_make dsType connId = .error msg) ∧
    (∀ sectionKey, ∃ msg,
      insert_datasource sectionKey dsType connId = .error msg) := by
  have h1 : dsType ≠ "POSTGIS" ∧ dsType ≠ "WCS" ∧ dsType ≠ "WFS" := by
    simpa using h
  have b1 : (dsType == "POSTGIS") = false := beq_eq_false_iff_ne.mpr h1.1
  have b2 : (dsType == "WCS") = false := beq_eq_false_iff_ne.mpr h1.2.1
  have b3 : (dsType == "WFS") = false := beq_eq_false_iff_ne.mpr h1.2.2
  have hmk : DataSourceFactory_make dsType connId =
      .error ("KeyError: " ++ dsType) := by
    simp [DataSourceFactory_make, factorys, List.lookup, b1, b2, b3]
  refine ⟨⟨_, hmk⟩, fun sectionKey => ?_⟩
  by_cases hs : sectionKey ∈ managerSections
  · exact ⟨"KeyError: " ++ dsType, by simp [insert_datasource, hs, hmk]⟩
  · exact ⟨"KeyError: " ++ sectionKey, by simp [insert_datasource, hs]⟩

/-- C9 witness: the unrecognized tag "GEOJSON" fails at factory and at
registry insertion. -/
theorem c9_witness :
    (∃ msg, DataSourceFactory_make "GEOJSON" "ds1" = .error msg) ∧
    (∃ msg, insert_datasource "webservice_source" "GEOJSON" "ds1" =
      .error msg) := by
  have h := c9_unknown_backend_fails_at_load "GEOJSON" "ds1" (by decide)
  exact ⟨h.1, h.2 "webservice_source"⟩

end Wlts
